import Mathlib

/-
Shallow embedding of the BME280 sensor driver (src/bme280.go of
github.com/maciej/bme280).

Modeling conventions:
 - Go machine integers are modeled as Int/Nat with explicit wrapping:
   int32/int64/int8/int16 arithmetic wraps two's-complement via w32/w64/w8/w16,
   uint32 arithmetic wraps mod 2^32, and Go's signed division (truncation
   toward zero) is Int.tdiv.  Conversions such as uint32(x) and int8(b) are
   toU32/int8Of, etc.
 - The compensation results are float64 divisions of an integer by 100, 10000
   or 1000, modeled as exact rational arithmetic (ℚ): float64 division is
   exact whenever the true quotient is representable (all equalities stated
   below are at such points) and is monotone with exactly representable
   bounds, so the order and equality statements transfer to the float code.
 - The forced-measurement wait time is computed by the source in float32
   (lines 494-498).  It is modeled EXACTLY, bit for bit: every float32 value
   reached is in the binary32 normal range and is an integer multiple of
   2^-30, so values are carried as Nat numerators in 2^-30 fixed point and
   every float32 operation result passes through fl32fix, IEEE
   round-to-nearest-even to 24 significand bits (one rounding per operation,
   which is how gc compiles this expression).
 - The bus (the `bus` interface of the source: ReadReg/WriteReg) is a state
   machine `Step σ`: given a state and an operation it returns `none` for a
   bus error or `some bytes` for success, plus the next state.  `traced`
   instruments any bus to record the sequence of operations issued.
 - time.Sleep is modeled by returning the slept duration where a claim needs
   it (forceMeasurement returns its computed wait in microseconds).
-/

set_option maxRecDepth 8192

namespace BME280

/-- Decidable equality for Except, needed to evaluate driver results. -/
instance {ε α : Type} [DecidableEq ε] [DecidableEq α] : DecidableEq (Except ε α) :=
  fun a b =>
    match a, b with
    | Except.ok x, Except.ok y =>
      if h : x = y then isTrue (by rw [h]) else isFalse (fun hh => h (Except.ok.inj hh))
    | Except.error e, Except.error f =>
      if h : e = f then isTrue (by rw [h]) else isFalse (fun hh => h (Except.error.inj hh))
    | Except.ok _, Except.error _ => isFalse (fun hh => Except.noConfusion hh)
    | Except.error _, Except.ok _ => isFalse (fun hh => Except.noConfusion hh)

/- Register addresses and constants, src/bme280.go lines 24-71. -/

def ModeSleep : Nat := 0x00
def ModeForced : Nat := 0x01
def ModeNormal : Nat := 0x03

def chipIdAddr : Nat := 0xD0
def resetAddr : Nat := 0xE0
def tempPressCalibDataAddr : Nat := 0x88
def humidityCalibDataAddr : Nat := 0xE1
def pwrCtrlAddr : Nat := 0xF4
def ctrlHumAddr : Nat := 0xF2
def ctrlMeasAddr : Nat := 0xF4
def configAddr : Nat := 0xF5
def dataAddr : Nat := 0xF7
def chipId : Nat := 0x60

/- Machine-integer helpers. -/

/-- Two's-complement wrap to int32 (Go int32 arithmetic overflows by wrapping). -/
def w32 (x : Int) : Int := (x + 2147483648) % 4294967296 - 2147483648

/-- Two's-complement wrap to int64. -/
def w64 (x : Int) : Int := (x + 9223372036854775808) % 18446744073709551616 - 9223372036854775808

/-- Two's-complement wrap to int8. -/
def w8 (x : Int) : Int := (x + 128) % 256 - 128

/-- Two's-complement wrap to int16. -/
def w16 (x : Int) : Int := (x + 32768) % 65536 - 32768

/-- Go conversion uint32(x) of a signed value: reduce mod 2^32. -/
def toU32 (x : Int) : Nat := (x % 4294967296).toNat

/-- Reinterpret an int16 value as its unsigned 16-bit pattern. -/
def toU16 (x : Int) : Nat := (x % 65536).toNat

/-- Go conversion int8(b) of a byte. -/
def int8Of (n : Nat) : Int := w8 (n % 256 : Nat)

/-- Go conversion int32(u) of a uint32. -/
def int32Of (n : Nat) : Int := w32 (n : Int)

/-- Wrapping int32 multiplication, addition, subtraction. -/
def mul32 (a b : Int) : Int := w32 (a * b)

def add32 (a b : Int) : Int := w32 (a + b)

def sub32 (a b : Int) : Int := w32 (a - b)

/-- Wrapping int64 multiplication, addition, subtraction. -/
def mul64 (a b : Int) : Int := w64 (a * b)

def add64 (a b : Int) : Int := w64 (a + b)

def sub64 (a b : Int) : Int := w64 (a - b)

/-- Bitwise OR at width 16, two's complement (Go `|` on int16 operands). -/
def or16 (x y : Int) : Int := w16 (toU16 x ||| toU16 y)

/-- Reading byte i of a register read's buffer (a Go []byte holds bytes). -/
def byteAt (l : List Nat) (i : Nat) : Nat := l.getD i 0 % 256

/-- Clamp on Int mirroring the source's two-branch if (lines 340-344 etc.). -/
def clampI (lo hi x : Int) : Int := if x < lo then lo else if x > hi then hi else x

/-- Clamp on Nat mirroring the source's two-branch if (lines 373-377). -/
def clampN (lo hi x : Nat) : Nat := if x < lo then lo else if x > hi then hi else x

/- Calibration data, the `calib` struct of Driver, src lines 93-113.
   Field ranges (uint16/int16/uint8/int8/int32) are captured by `Calib.WF`. -/

structure Calib where
  t1 : Int
  t2 : Int
  t3 : Int
  p1 : Int
  p2 : Int
  p3 : Int
  p4 : Int
  p5 : Int
  p6 : Int
  p7 : Int
  p8 : Int
  p9 : Int
  h1 : Int
  h2 : Int
  h3 : Int
  h4 : Int
  h5 : Int
  h6 : Int
  tFine : Int
deriving DecidableEq

abbrev u16R (x : Int) : Prop := 0 ≤ x ∧ x < 65536

abbrev i16R (x : Int) : Prop := -32768 ≤ x ∧ x < 32768

abbrev u8R (x : Int) : Prop := 0 ≤ x ∧ x < 256

abbrev i8R (x : Int) : Prop := -128 ≤ x ∧ x < 128

abbrev i32R (x : Int) : Prop := -2147483648 ≤ x ∧ x < 2147483648

/-- Well-formedness: each coefficient is in the range of its Go type. -/
abbrev Calib.WF (c : Calib) : Prop :=
  u16R c.t1 ∧ i16R c.t2 ∧ i16R c.t3 ∧
  u16R c.p1 ∧ i16R c.p2 ∧ i16R c.p3 ∧ i16R c.p4 ∧ i16R c.p5 ∧ i16R c.p6 ∧
  i16R c.p7 ∧ i16R c.p8 ∧ i16R c.p9 ∧
  u8R c.h1 ∧ i16R c.h2 ∧ u8R c.h3 ∧ i16R c.h4 ∧ i16R c.h5 ∧ i8R c.h6 ∧
  i32R c.tFine

def zeroCalib : Calib := ⟨0, 0, 0, 0, 0, 0, 0, 0, 0, 0, 0, 0, 0, 0, 0, 0, 0, 0, 0⟩

/- Compensation formulas, src lines 328-413. -/

/-- Driver.compensateTemperature, src lines 328-347, integer part: returns
(clamped temperature in centi-degrees, tFine).  All arithmetic is int32. -/
def compensateTemperatureInt (c : Calib) (u : Nat) : Int × Int :=
  let v1 := sub32 (Int.tdiv (int32Of u) 8) (mul32 c.t1 2)
  let v1 := Int.tdiv (mul32 v1 c.t2) 2048
  let v2 := sub32 (Int.tdiv (int32Of u) 16) c.t1
  let v2 := Int.tdiv (mul32 (Int.tdiv (mul32 v2 v2) 4096) c.t3) 16384
  let tFine := add32 v1 v2
  let temp := Int.tdiv (add32 (mul32 tFine 5) 128) 256
  (clampI (-4000) 8500 temp, tFine)

/-- Driver.compensateTemperature's return value: float64(temp)/100.0 and tFine. -/
def compensateTemperature (c : Calib) (u : Nat) : ℚ × Int :=
  let p := compensateTemperatureInt c u
  ((p.1 : ℚ) / 100, p.2)

/-- The pressure denominator v1 of Driver.compensatePressure, src lines
353-359 (it does not depend on the raw reading u). -/
def pressureDenom (c : Calib) : Int :=
  let v1 := sub64 c.tFine 128000
  let v1 := add64 (Int.tdiv (mul64 (mul64 v1 v1) c.p3) 256) (mul64 (mul64 v1 c.p2) 4096)
  Int.tdiv (mul64 (add64 140737488355328 v1) c.p1) 8589934592

/-- The non-degenerate branch of Driver.compensatePressure, src lines 353-377:
the clamped uint32 value `pressure` just before the final float division. -/
def pressureNum (c : Calib) (u : Nat) : Nat :=
  let v1 := sub64 c.tFine 128000
  let v2 := mul64 (mul64 v1 v1) c.p6
  let v2 := add64 v2 (mul64 (mul64 v1 c.p5) 131072)
  let v2 := add64 v2 (mul64 c.p4 34359738368)
  let v1 := pressureDenom c
  let v4 := sub64 1048576 u
  let v4 := Int.tdiv (mul64 (sub64 (mul64 v4 2147483648) v2) 3125) v1
  let v1 := Int.tdiv (mul64 (mul64 c.p9 (Int.tdiv v4 8192)) (Int.tdiv v4 8192)) 33554432
  let v2 := Int.tdiv (mul64 c.p8 v4) 524288
  let v4 := add64 (Int.tdiv (add64 (add64 v4 v1) v2) 256) (mul64 c.p7 16)
  let pressure := toU32 (Int.tdiv v4 2) * 100 % 4294967296 / 128
  clampN 3000000 11000000 pressure

/-- Driver.compensatePressure, src lines 349-380.  On a zero denominator the
source returns float64(pmin)/100.0 (divided by 100 ONCE, line 362); the normal
branch returns float64(pressure)/100.0/100.0 (line 379). -/
def compensatePressure (c : Calib) (u : Nat) : ℚ :=
  if pressureDenom c = 0 then (3000000 : ℚ) / 100
  else (pressureNum c u : ℚ) / 100 / 100

/-- Driver.compensateHumidity, src lines 382-413, integer part: the clamped
uint32 humidity value just before the final float division.  int32 arithmetic
throughout; `int32(u * 16384)` wraps the uint32 product first. -/
def humidityNum (c : Calib) (u : Nat) : Nat :=
  let v1 := sub32 c.tFine 76800
  let v2 := int32Of (u * 16384)
  let v3 := mul32 c.h4 1048576
  let v4 := mul32 c.h5 v1
  let v5 := Int.tdiv (add32 (sub32 (sub32 v2 v3) v4) 16384) 32768
  let v2 := Int.tdiv (mul32 v1 c.h6) 1024
  let v3 := Int.tdiv (mul32 v1 c.h3) 2048
  let v4 := add32 (Int.tdiv (mul32 v2 (add32 v3 32768)) 1024) 2097152
  let v2 := Int.tdiv (add32 (mul32 v4 c.h2) 8192) 16384
  let v3 := mul32 v5 v2
  let v4 := Int.tdiv (mul32 (Int.tdiv v3 32768) (Int.tdiv v3 32768)) 128
  let v5 := sub32 v3 (Int.tdiv (mul32 v4 c.h1) 16)
  let v5 := clampI 0 419430400 v5
  let humidity := toU32 (Int.tdiv v5 4096)
  if humidity > 100000 then 100000 else humidity

/-- Driver.compensateHumidity's return value: float64(humidity)/1000.0. -/
def compensateHumidity (c : Calib) (u : Nat) : ℚ := (humidityNum c u : ℚ) / 1000

/- Humidity calibration decode, src lines 455-459 (Driver.readCalibData).
   `b` is the 7-byte block read at humidityCalibDataAddr. -/

/-- Decode of calib.h4, src line 457: int16(buf[3])*16 | int16(buf[4]&0x0F).
The multiplication is int16 (the byte is zero-extended first). -/
def calibH4 (b : List Nat) : Int :=
  or16 (w16 ((byteAt b 3 : Nat) * 16)) ((Nat.land (byteAt b 4) 0x0F : Nat) : Int)

/-- Decode of calib.h5, src line 458: int16(int8(buf[5])*16) | int16(buf[4]>>4).
The multiplication int8(buf[5])*16 is performed in int8 and WRAPS (w8) before
the conversion to int16 sign-extends the wrapped product. -/
def calibH5 (b : List Nat) : Int :=
  or16 (w8 (int8Of (byteAt b 5) * 16)) ((byteAt b 4 >>> 4 : Nat) : Int)

/-- Modelled from the spec's words, for comparison with `calibH5`: "low
coefficient = (signedByte[5]×16) | (byte[4]>>4)" with mathematical
(non-wrapping) multiplication of the sign-extended byte, OR at width 16. -/
def specH5 (b : List Nat) : Int :=
  or16 (int8Of (byteAt b 5) * 16) ((byteAt b 4 >>> 4 : Nat) : Int)

/- The bus: the `bus` interface of src lines 13-16, as a state machine. -/

inductive BusOp where
  | readReg (addr len : Nat)
  | writeReg (addr : Nat) (data : List Nat)
deriving DecidableEq

/-- A bus behavior: `none` models a Go error return, `some bytes` success
(for a read, the bytes placed in the caller's buffer). -/
abbrev Step (σ : Type) := σ → BusOp → Option (List Nat) × σ

/-- Instrument a bus to record the sequence of operations issued. -/
def traced {σ : Type} (step : Step σ) : Step (σ × List BusOp) :=
  fun s op =>
    let r := step s.1 op
    (r.1, (r.2, s.2 ++ [op]))

def ReadReg {σ : Type} (step : Step σ) (s : σ) (addr len : Nat) :
    Option (List Nat) × σ :=
  step s (BusOp.readReg addr len)

def WriteReg {σ : Type} (step : Step σ) (s : σ) (addr : Nat) (data : List Nat) :
    Option (List Nat) × σ :=
  step s (BusOp.writeReg addr data)

/- Driver data types, src lines 89-140. -/

structure Settings where
  Filter : Nat
  Standby : Nat
  PressureOversampling : Nat
  TemperatureOversampling : Nat
  HumidityOversampling : Nat
deriving DecidableEq

structure Response where
  Temperature : ℚ
  Pressure : ℚ
  Humidity : ℚ
deriving DecidableEq

/-- Driver state: in-memory desired mode, the flag Init sets on success
(`initialized` in the source), and the calibration store. -/
structure Driver where
  mode : Nat
  initDone : Bool
  calib : Calib
deriving DecidableEq

/-- New, src lines 136-140: Go zero values for every field but the bus. -/
def New : Driver := { mode := 0, initDone := false, calib := zeroCalib }

/-- Error outcomes of driver operations: a propagated bus error, the chip-id
mismatch of Init, or forceMeasurement's "sensor in normal mode" error. -/
inductive DriverErr where
  | busFail
  | wrongChip (got : Nat)
  | normalMode
deriving DecidableEq

/- Driver operations, each parametric in the bus. -/

/-- Driver.GetMode, src lines 270-279: one read of the power-control register,
low 2 bits are the mode. -/
def GetMode {σ : Type} (step : Step σ) (s : σ) : Except DriverErr Nat × σ :=
  match ReadReg step s pwrCtrlAddr 1 with
  | (none, s1) => (Except.error DriverErr.busFail, s1)
  | (some l, s1) => (Except.ok (Nat.land (byteAt l 0) 0x03), s1)

/-- Driver.GetSettings, src lines 236-268: reads config, ctrlMeas, ctrlHum and
unpacks the 3-bit fields. -/
def GetSettings {σ : Type} (step : Step σ) (s : σ) : Except DriverErr Settings × σ :=
  match ReadReg step s configAddr 1 with
  | (none, s1) => (Except.error DriverErr.busFail, s1)
  | (some l1, s1) =>
    let filter := Nat.land (byteAt l1 0) (1 <<< 2 ||| 1 <<< 3 ||| 1 <<< 4) >>> 2
    let standby := Nat.land (byteAt l1 0) (1 <<< 5 ||| 1 <<< 6 ||| 1 <<< 7) >>> 5
    match ReadReg step s1 ctrlMeasAddr 1 with
    | (none, s2) => (Except.error DriverErr.busFail, s2)
    | (some l2, s2) =>
      let pOsr := Nat.land (byteAt l2 0) (1 <<< 2 ||| 1 <<< 3 ||| 1 <<< 4) >>> 2
      let tOsr := Nat.land (byteAt l2 0) (1 <<< 5 ||| 1 <<< 6 ||| 1 <<< 7) >>> 5
      match ReadReg step s2 ctrlHumAddr 1 with
      | (none, s3) => (Except.error DriverErr.busFail, s3)
      | (some l3, s3) =>
        let hOsr := Nat.land (byteAt l3 0) (1 ||| 1 <<< 1 ||| 1 <<< 2)
        (Except.ok ⟨filter, standby, pOsr, tOsr, hOsr⟩, s3)

/-- Driver.softReset, src lines 415-425: write 0xB6 to the reset register
(the 2ms settle wait has no observable effect here). -/
def softReset {σ : Type} (step : Step σ) (s : σ) : Except DriverErr Unit × σ :=
  match WriteReg step s resetAddr [0xB6] with
  | (none, s1) => (Except.error DriverErr.busFail, s1)
  | (some _, s1) => (Except.ok (), s1)

/-- Driver.loadSettings, src lines 504-544: write ctrlHum, then
read-modify-write ctrlMeas and config preserving their low 2 bits
(buf[0] &^= (0x07<<2)|(0x07<<5) keeps bits 0-1 of the byte). -/
def loadSettings {σ : Type} (step : Step σ) (s : σ) (c : Settings) :
    Except DriverErr Unit × σ :=
  match WriteReg step s ctrlHumAddr [Nat.land c.HumidityOversampling 0x07] with
  | (none, s1) => (Except.error DriverErr.busFail, s1)
  | (some _, s1) =>
    match ReadReg step s1 ctrlMeasAddr 1 with
    | (none, s2) => (Except.error DriverErr.busFail, s2)
    | (some l, s2) =>
      let b := Nat.land (byteAt l 0) 0x03 |||
        (Nat.land c.PressureOversampling 0x07 <<< 2 |||
         Nat.land c.TemperatureOversampling 0x07 <<< 5)
      match WriteReg step s2 ctrlMeasAddr [b] with
      | (none, s3) => (Except.error DriverErr.busFail, s3)
      | (some _, s3) =>
        match ReadReg step s3 configAddr 1 with
        | (none, s4) => (Except.error DriverErr.busFail, s4)
        | (some l2, s4) =>
          let b2 := Nat.land (byteAt l2 0) 0x03 |||
            (Nat.land c.Filter 0x07 <<< 2 ||| Nat.land c.Standby 0x07 <<< 5)
          match WriteReg step s4 configAddr [b2] with
          | (none, s5) => (Except.error DriverErr.busFail, s5)
          | (some _, s5) => (Except.ok (), s5)

/-- Driver.Sleep, src lines 282-294: read settings, soft-reset, re-apply
settings; every failure short-circuits. -/
def Sleep {σ : Type} (step : Step σ) (s : σ) : Except DriverErr Unit × σ :=
  match GetSettings step s with
  | (Except.error e, s1) => (Except.error e, s1)
  | (Except.ok settings, s1) =>
    match softReset step s1 with
    | (Except.error e, s2) => (Except.error e, s2)
    | (Except.ok _, s2) => loadSettings step s2 settings

/-- Driver.SetMode, src lines 206-233, with the source's error handling
modeled exactly: the result of d.Sleep() (line 213) is discarded; a failure
of the second power-register read returns nil (lines 218-219); the final
WriteReg's error is never assigned, so the stale nil err is checked (lines
225-228).  Returns (result, new in-memory mode, bus state). -/
def SetMode {σ : Type} (step : Step σ) (s : σ) (dmode m : Nat) :
    Except DriverErr Unit × Nat × σ :=
  match GetMode step s with
  | (Except.error e, s1) => (Except.error e, dmode, s1)
  | (Except.ok lastMode, s1) =>
    let s2 := if lastMode ≠ ModeSleep then (Sleep step s1).2 else s1
    match ReadReg step s2 pwrCtrlAddr 1 with
    | (none, s3) => (Except.ok (), dmode, s3)
    | (some l, s3) =>
      let b := Nat.land (byteAt l 0) 0xFC ||| Nat.land m 0x03
      let s4 := (WriteReg step s3 pwrCtrlAddr [b]).2
      (Except.ok (), m, s4)

/- Exact binary32 (float32) arithmetic for the measurement-time computation,
src lines 494-498.  Every float32 value reached there is nonnegative, lies in
the binary32 normal range, and is an integer multiple of 2^-30 (the constants
have 24-bit significands with exponents ≥ -24, the table entries are small
integers, and the only multiplications are by the integers coefs[i] and
1000), so a value is carried exactly as a Nat numerator in units of 2^-30
and IEEE rounding is integer arithmetic on that numerator. -/

/-- One unit scale of the fixed-point carrier: 2^30. -/
def fixOne : Nat := 1073741824

/-- Round a/b to the nearest integer, ties to even (IEEE rounding of an exact
nonnegative quotient). -/
def rdivNE (a b : Nat) : Nat :=
  let q := a / b
  let r := a % b
  if 2 * r < b then q
  else if 2 * r > b then q + 1
  else if q % 2 = 0 then q else q + 1

/-- Round n to the nearest multiple of g, ties to the even multiple. -/
def rne (n g : Nat) : Nat := rdivNE n g * g

/-- Floor of log2, by structural recursion on a fuel argument so that it
reduces definitionally (64 iterations suffice for every n < 2^64; all values
fed to it here are far smaller). -/
def log2F : Nat → Nat → Nat
  | 0, _ => 0
  | fuel + 1, n => if n ≤ 1 then 0 else log2F fuel (n / 2) + 1

/-- Floor of log2 of a positive Nat (the leading-bit position). -/
def lg2 (n : Nat) : Nat := log2F 64 n

/-- IEEE binary32 round-to-nearest-even of the value n/2^30, returned in the
same fixed-point carrier.  e = lg2 n is the leading-bit position of n: when
e ≤ 23 the value has at most 24 significant bits and is exactly
representable; otherwise it is rounded to 24 significand bits, i.e. to the
nearest multiple of 2^(e-23) units.  (Valid for values in the binary32 normal
range, which covers every value this file feeds it.) -/
def fl32fix (n : Nat) : Nat :=
  if n = 0 then 0
  else
    let e := lg2 n
    if e ≤ 23 then n
    else rne n (2 ^ (e - 23))

/-- float32(2.3), the converted Go constant of lines 494-496: 2.3 ∈ [2, 4),
so its significand is round-nearest-even(2.3 * 2^22) = 9646899 and the value
is 9646899/2^22 = (9646899 * 2^8)/2^30. -/
def c23fix : Nat := rdivNE (23 * 4194304) 10 * 256

/-- float32(0.575), the converted Go constant of lines 495-496: 0.575 ∈
[1/2, 1), so its significand is round-nearest-even(0.575 * 2^24) = 9646899
and the value is 9646899/2^24 = (9646899 * 2^6)/2^30. -/
def c0575fix : Nat := rdivNE (575 * 16777216) 1000 * 64

/-- float32(1.25), exact: 1.25 * 2^30. -/
def c125fix : Nat := 1342177280

/-- Per-oversampling-level timing coefficients, src lines 73-87 (the package
init function): indices 5, 6 and 7 all hold 16.0, index 4 holds 8.0.  Each
entry is a small integer, exact in float32; it is stored here as that integer
so that multiplying the 2^-30 fixed-point carrier by it is the exact float32
product before rounding. -/
def oversamplingCoefs : List Nat := [0, 1, 2, 4, 8, 16, 16, 16]

/-- Driver.forceMeasurement, src lines 464-502.  bme280.ForcedMode (imported
from github.com/quhar/bme280) is the forced-mode command value 0x01, equal to
this package's ModeForced.  On success returns the duration slept, in whole
microseconds: the source computes measTime in float32 (modeled exactly via
fl32fix, one rounding per operation) and sleeps
time.Duration(math.Ceil(float64(measTime * 1000))), where the float64
widening is exact, Ceil is exact, and the ceiling of the fixed-point value
n/2^30 is (n + fixOne - 1) / fixOne. -/
def forceMeasurement {σ : Type} (step : Step σ) (s : σ) : Except DriverErr Nat × σ :=
  match GetMode step s with
  | (Except.error e, s1) => (Except.error e, s1)
  | (Except.ok lastMode, s1) =>
    if lastMode = ModeNormal then (Except.error DriverErr.normalMode, s1)
    else
      match GetSettings step s1 with
      | (Except.error e, s2) => (Except.error e, s2)
      | (Except.ok st, s2) =>
        match WriteReg step s2 ctrlHumAddr [Nat.land st.HumidityOversampling 0x07] with
        | (none, s3) => (Except.error DriverErr.busFail, s3)
        | (some _, s3) =>
          let b := ModeForced |||
            Nat.land st.PressureOversampling 0x07 <<< 2 |||
            Nat.land st.TemperatureOversampling 0x07 <<< 5
          match WriteReg step s3 ctrlMeasAddr [b] with
          | (none, s4) => (Except.error DriverErr.busFail, s4)
          | (some _, s4) =>
            let tempMeasTime := fl32fix (c23fix * oversamplingCoefs.getD st.TemperatureOversampling 0)
            let pressureMeasTime := fl32fix (fl32fix (c23fix * oversamplingCoefs.getD st.PressureOversampling 0) + c0575fix)
            let humidityMeasTime := fl32fix (fl32fix (c23fix * oversamplingCoefs.getD st.HumidityOversampling 0) + c0575fix)
            let measTime := fl32fix (fl32fix (fl32fix (c125fix + tempMeasTime) + pressureMeasTime) + humidityMeasTime)
            (Except.ok ((fl32fix (measTime * 1000) + fixOne - 1) / fixOne), s4)

/-- Driver.Read, src lines 296-326: force a measurement when the in-memory
mode is ModeForced, burst-read 8 bytes at dataAddr, unpack the three raw
values, compensate (temperature first; its tFine is stored in the calibration
struct and consumed by pressure and humidity). -/
def Read {σ : Type} (step : Step σ) (s : σ) (d : Driver) :
    Except DriverErr Response × Driver × σ :=
  match (if d.mode = ModeForced then
          match forceMeasurement step s with
          | (Except.error e, s1) => (some e, s1)
          | (Except.ok _, s1) => (none, s1)
        else (none, s)) with
  | (some e, s1) => (Except.error e, d, s1)
  | (none, s1) =>
    match ReadReg step s1 dataAddr 8 with
    | (none, s2) => (Except.error DriverErr.busFail, d, s2)
    | (some l, s2) =>
      let utemp := byteAt l 3 <<< 12 ||| byteAt l 4 <<< 4 ||| byteAt l 5 >>> 4
      let upress := byteAt l 0 <<< 12 ||| byteAt l 1 <<< 4 ||| byteAt l 2 >>> 4
      let uhum := byteAt l 6 <<< 8 ||| byteAt l 7
      let tp := compensateTemperature d.calib utemp
      let c := { d.calib with tFine := tp.2 }
      (Except.ok ⟨tp.1, compensatePressure c upress, compensateHumidity c uhum⟩,
       { d with calib := c }, s2)

/-- Outcome of the chip-identity retry loop of Driver.Init. -/
inductive InitIdRes where
  | ok
  | mismatch (got : Nat)
  | busErr
deriving DecidableEq

/-- The chip-identity retry loop of Driver.Init, src lines 144-159.
`identityPoll resp retries idx` runs the loop body with `retries` left, the
next read being the idx-th (resp idx = none models a failing ReadReg).
Returns the outcome and the number of identity reads performed.  The source
enters the loop with retries = 5 (line 145). -/
def identityPoll (resp : Nat → Option Nat) : Nat → Nat → InitIdRes × Nat
  | retries, idx =>
    match resp idx with
    | some b =>
      if b = chipId then (InitIdRes.ok, 1)
      else
        match retries with
        | 0 => (InitIdRes.mismatch b, 1)
        | r + 1 =>
          let p := identityPoll resp r (idx + 1)
          (p.1, p.2 + 1)
    | none =>
      match retries with
      | 0 => (InitIdRes.busErr, 1)
      | r + 1 =>
        let p := identityPoll resp r (idx + 1)
        (p.1, p.2 + 1)

/- Concrete bus behaviors used by the theorems. -/

/-- A bus on which every operation succeeds and every read returns zero bytes
(the repo test's nullBus leaves the caller's zeroed buffer untouched). -/
def zeroStep : Step Unit := fun _ op =>
  match op with
  | BusOp.readReg _ len => (some (List.replicate len 0), ())
  | BusOp.writeReg _ _ => (some [], ())

/-- A bus whose reads return fixed register bytes (cfg at configAddr, hum at
ctrlHumAddr, meas at the shared ctrlMeas/pwrCtrl address) and whose writes
all succeed. -/
def regByteStep (cfg meas hum : Nat) : Step Unit := fun _ op =>
  match op with
  | BusOp.readReg a len =>
    (some (if a = configAddr then [cfg]
           else if a = ctrlHumAddr then [hum]
           else if a = ctrlMeasAddr then [meas]
           else List.replicate len 0), ())
  | BusOp.writeReg _ _ => (some [], ())

/-- A register file for the three settings registers: reads return the stored
byte, writes store it (retaining nothing else: whole-byte registers). -/
structure Regs where
  ctrlHum : Nat
  ctrlMeas : Nat
  config : Nat
deriving DecidableEq

def regFileStep : Step Regs := fun r op =>
  match op with
  | BusOp.readReg a len =>
    (some (if a = ctrlHumAddr then [r.ctrlHum]
           else if a = ctrlMeasAddr then [r.ctrlMeas]
           else if a = configAddr then [r.config]
           else List.replicate len 0), r)
  | BusOp.writeReg a ds =>
    (some [],
     if a = ctrlHumAddr then { r with ctrlHum := byteAt ds 0 }
     else if a = ctrlMeasAddr then { r with ctrlMeas := byteAt ds 0 }
     else if a = configAddr then { r with config := byteAt ds 0 }
     else r)

/-- A bus whose first call (SetMode's GetMode read) succeeds returning 0x00
and whose every later call fails. -/
def setModeBus : Step Nat := fun n _ =>
  if n = 0 then (some [0], 1) else (none, n + 1)

/-- Identity-register responses that fail five times, then return the
expected chip id 0x60. -/
def fiveFailResp : Nat → Option Nat := fun n => if n < 5 then none else some chipId

/-- A bus on which every read returns the single byte 0x03 (device reporting
Normal mode) and every write succeeds. -/
def normalByteBus : Step Unit := fun _ _ => (some [3], ())

/-- A calibration set whose pressure denominator is nonzero: p1 = 1 and
tFine = 128000, every other coefficient zero. -/
def denomOneCalib : Calib := ⟨0, 0, 0, 1, 0, 0, 0, 0, 0, 0, 0, 0, 0, 0, 0, 0, 0, 0, 128000⟩

/-- Modelled from the claim's words, for comparison with forceMeasurement:
the per-level timing table as the claim states it (off=0, 1x=1.0, 2x=2.0,
4x=4.0, 8x=16.0, 16x=16.0, higher encodings also 16.0). -/
def specOversamplingCoefs : List ℚ := [0, 1, 2, 4, 16, 16, 16, 16]

/-- Modelled from the claim's words, for comparison with forceMeasurement:
measurement_time_ms = 1.25 + 2.3*T_coef + (2.3*P_coef + 0.575 if pressure
oversampling is enabled) + (2.3*H_coef + 0.575 if humidity oversampling is
enabled), rounded up, in microseconds. -/
def specMeasMicros (s : Settings) : Int :=
  ⌈((1.25 : ℚ)
    + (2.3 : ℚ) * specOversamplingCoefs.getD s.TemperatureOversampling 0
    + (if s.PressureOversampling ≠ 0 then
        (2.3 : ℚ) * specOversamplingCoefs.getD s.PressureOversampling 0 + 0.575 else 0)
    + (if s.HumidityOversampling ≠ 0 then
        (2.3 : ℚ) * specOversamplingCoefs.getD s.HumidityOversampling 0 + 0.575 else 0)) * 1000⌉

/- Helper lemmas. -/

theorem clampI_mem (lo hi x : Int) (h : lo ≤ hi) :
    lo ≤ clampI lo hi x ∧ clampI lo hi x ≤ hi := by
  unfold clampI; split_ifs <;> omega

theorem clampN_mem (lo hi x : Nat) (h : lo ≤ hi) :
    lo ≤ clampN lo hi x ∧ clampN lo hi x ≤ hi := by
  unfold clampN; split_ifs <;> omega

theorem pressureNum_mem (c : Calib) (u : Nat) :
    3000000 ≤ pressureNum c u ∧ pressureNum c u ≤ 11000000 := by
  simp only [pressureNum]
  exact clampN_mem _ _ _ (by norm_num)

theorem tempInt_mem (c : Calib) (u : Nat) :
    -4000 ≤ (compensateTemperatureInt c u).1 ∧ (compensateTemperatureInt c u).1 ≤ 8500 := by
  simp only [compensateTemperatureInt]
  exact clampI_mem _ _ _ (by norm_num)

theorem humidityNum_le (c : Calib) (u : Nat) : humidityNum c u ≤ 100000 := by
  simp only [humidityNum]
  split <;> omega

theorem div100_mem {t : Int} (h1 : -4000 ≤ t) (h2 : t ≤ 8500) :
    (-40:ℚ) ≤ (t:ℚ)/100 ∧ (t:ℚ)/100 ≤ 85 := by
  have hc1 : ((-4000 : Int) : ℚ) ≤ (t:ℚ) := by exact_mod_cast h1
  have hc2 : (t:ℚ) ≤ ((8500 : Int) : ℚ) := by exact_mod_cast h2
  push_cast at hc1 hc2
  constructor
  · rw [le_div_iff₀ (by norm_num : (0:ℚ) < 100)]; linarith
  · rw [div_le_iff₀ (by norm_num : (0:ℚ) < 100)]; linarith

theorem divP_mem {p : Nat} (h1 : 3000000 ≤ p) (h2 : p ≤ 11000000) :
    (300:ℚ) ≤ (p:ℚ)/100/100 ∧ (p:ℚ)/100/100 ≤ 1100 := by
  have hc1 : ((3000000 : Nat) : ℚ) ≤ (p:ℚ) := by exact_mod_cast h1
  have hc2 : (p:ℚ) ≤ ((11000000 : Nat) : ℚ) := by exact_mod_cast h2
  push_cast at hc1 hc2
  rw [div_div]
  constructor
  · rw [le_div_iff₀ (by norm_num : (0:ℚ) < 100 * 100)]; linarith
  · rw [div_le_iff₀ (by norm_num : (0:ℚ) < 100 * 100)]; linarith

theorem temp_bounds (c : Calib) (u : Nat) :
    (-40:ℚ) ≤ (compensateTemperature c u).1 ∧ (compensateTemperature c u).1 ≤ 85 := by
  have h := tempInt_mem c u
  simp only [compensateTemperature]
  exact div100_mem h.1 h.2

theorem press_bounds (c : Calib) (u : Nat) :
    compensatePressure c u = 30000 ∨
      ((300:ℚ) ≤ compensatePressure c u ∧ compensatePressure c u ≤ 1100) := by
  unfold compensatePressure
  by_cases hd : pressureDenom c = 0
  · left; rw [if_pos hd]; norm_num
  · right; rw [if_neg hd]; have h := pressureNum_mem c u; exact divP_mem h.1 h.2

theorem hum_bounds (c : Calib) (u : Nat) :
    (0:ℚ) ≤ compensateHumidity c u ∧ compensateHumidity c u ≤ 100 := by
  unfold compensateHumidity
  constructor
  · positivity
  · have h := humidityNum_le c u
    have hc : ((humidityNum c u : Nat) : ℚ) ≤ ((100000 : Nat) : ℚ) := by exact_mod_cast h
    push_cast at hc
    rw [div_le_iff₀ (by norm_num : (0:ℚ) < 1000)]; linarith

theorem land_le_right (n m : Nat) : Nat.land n m ≤ m := Nat.and_le_right

theorem decodePair : ∀ m < 4, ∀ x < 8, ∀ y < 8,
    Nat.land ((m ||| (Nat.land x 7 <<< 2 ||| Nat.land y 7 <<< 5)) % 256) 28 >>> 2 = x ∧
    Nat.land ((m ||| (Nat.land x 7 <<< 2 ||| Nat.land y 7 <<< 5)) % 256) 224 >>> 5 = y := by
  decide

theorem humRound : ∀ h < 8, Nat.land (Nat.land h 7 % 256) 7 = h := by decide

theorem identityPoll_count_le (resp : Nat → Option Nat) :
    ∀ k idx, (identityPoll resp k idx).2 ≤ k + 1 := by
  intro k
  induction k with
  | zero =>
    intro idx
    rcases hr : resp idx with _ | b <;> simp [identityPoll, hr]
    split <;> simp
  | succ r ih =>
    intro idx
    rcases hr : resp idx with _ | b <;> simp [identityPoll, hr]
    · have := ih (idx + 1); omega
    · split
      · simp
      · simp only []
        have := ih (idx + 1); omega

theorem identityPoll_ok_iff (resp : Nat → Option Nat) :
    ∀ k idx, (identityPoll resp k idx).1 = InitIdRes.ok ↔
      ∃ i, i ≤ k ∧ resp (idx + i) = some chipId := by
  intro k
  induction k with
  | zero =>
    intro idx
    rcases hr : resp idx with _ | b <;> simp [identityPoll, hr]
    by_cases hb : b = chipId <;> simp [hb]
  | succ r ih =>
    intro idx
    rcases hr : resp idx with _ | b <;> simp [identityPoll, hr]
    · rw [ih (idx + 1)]
      constructor
      · rintro ⟨i, hi, hc⟩
        exact ⟨i + 1, by omega, by rw [show idx + (i+1) = idx + 1 + i by omega]; exact hc⟩
      · rintro ⟨i, hi, hc⟩
        match i with
        | 0 => rw [Nat.add_zero] at hc; rw [hr] at hc; cases hc
        | j + 1 =>
          exact ⟨j, by omega, by rw [show idx + 1 + j = idx + (j+1) by omega]; exact hc⟩
    · by_cases hb : b = chipId
      · simp [hb]
        exact ⟨0, by omega, by simp [hr, hb]⟩
      · simp [hb]
        rw [ih (idx + 1)]
        constructor
        · rintro ⟨i, hi, hc⟩
          exact ⟨i + 1, by omega, by rw [show idx + (i+1) = idx + 1 + i by omega]; exact hc⟩
        · rintro ⟨i, hi, hc⟩
          match i with
          | 0 => rw [Nat.add_zero] at hc; rw [hr] at hc; simp at hc; exact absurd hc hb
          | j + 1 =>
            exact ⟨j, by omega, by rw [show idx + 1 + j = idx + (j+1) by omega]; exact hc⟩

theorem identityPoll_fail (resp : Nat → Option Nat) :
    ∀ k idx, (∀ i, i ≤ k → resp (idx + i) ≠ some chipId) →
      (identityPoll resp k idx).2 = k + 1 ∧
      (∀ b, resp (idx + k) = some b → (identityPoll resp k idx).1 = InitIdRes.mismatch b) ∧
      (resp (idx + k) = none → (identityPoll resp k idx).1 = InitIdRes.busErr) := by
  intro k
  induction k with
  | zero =>
    intro idx hfail
    rcases hr : resp idx with _ | b <;> simp [identityPoll, hr]
    have hb : b ≠ chipId := by
      intro hb; exact hfail 0 (by omega) (by rw [Nat.add_zero, hr, hb])
    simp [hb]
  | succ r ih =>
    intro idx hfail
    have hshift : ∀ i, i ≤ r → resp (idx + 1 + i) ≠ some chipId := by
      intro i hi
      rw [show idx + 1 + i = idx + (i + 1) by omega]
      exact hfail (i + 1) (by omega)
    obtain ⟨ihc, ihm, ihb⟩ := ih (idx + 1) hshift
    have hb0 : resp idx ≠ some chipId := by
      have := hfail 0 (by omega); rwa [Nat.add_zero] at this
    rcases hr : resp idx with _ | b
    · simp [identityPoll, hr]
      refine ⟨ihc, ?_, ?_⟩
      · intro b hbk
        exact ihm b (by rw [show idx + 1 + r = idx + (r+1) by omega]; exact hbk)
      · intro hbk
        exact ihb (by rw [show idx + 1 + r = idx + (r+1) by omega]; exact hbk)
    · have hb : b ≠ chipId := fun hb => hb0 (by rw [hr, hb])
      simp [identityPoll, hr, hb]
      refine ⟨ihc, ?_, ?_⟩
      · intro b' hbk
        exact ihm b' (by rw [show idx + 1 + r = idx + (r+1) by omega]; exact hbk)
      · intro hbk
        exact ihb (by rw [show idx + 1 + r = idx + (r+1) by omega]; exact hbk)

/- Claim theorems. -/

/-- C1: the source's Driver.Read never consults the `initialized` flag: on a
freshly constructed driver (initDone = false) with a bus on which every call
succeeds, Read returns a successful Response (temperature 0, the degenerate
pressure value 30000, humidity 0) instead of an uninitialized error.  No
uninitialized error exists anywhere in src/bme280.go, although the repo's own
test expects one; this theorem evaluates the code at that failing input. -/
theorem read_without_init_returns_ok :
    New.initDone = false ∧ (Read zeroStep () New).1 = Except.ok ⟨0, 30000, 0⟩ := by
  refine ⟨rfl, ?_⟩
  have h1 : compensateTemperatureInt ⟨0,0,0,0,0,0,0,0,0,0,0,0,0,0,0,0,0,0,0⟩ 0 = (0, 0) := by
    decide
  have h2 : humidityNum ⟨0,0,0,0,0,0,0,0,0,0,0,0,0,0,0,0,0,0,0⟩ 0 = 0 := by decide
  have h3 : pressureDenom ⟨0,0,0,0,0,0,0,0,0,0,0,0,0,0,0,0,0,0,0⟩ = 0 := by decide
  simp [Read, ReadReg, zeroStep, byteAt, New, zeroCalib, ModeForced, dataAddr,
    compensateTemperature, compensatePressure, compensateHumidity, h1, h2, h3,
    List.replicate, List.getD]
  norm_num

/-- C2 (amended): for every well-formed calibration set and 20-bit raw
pressure, if the computed pressure denominator is exactly zero the
compensation returns exactly 30000.00 (the guard divides pmin by 100 only
once); otherwise the returned value lies within [300.00, 1100.00]. -/
theorem pressure_denom_guard_and_range (c : Calib) (u : Nat)
    (hc : c.WF) (hu : u < 1048576) :
    (pressureDenom c = 0 → compensatePressure c u = 30000) ∧
    (pressureDenom c ≠ 0 →
      (300:ℚ) ≤ compensatePressure c u ∧ compensatePressure c u ≤ 1100) := by
  constructor
  · intro hd
    unfold compensatePressure
    rw [if_pos hd]
    norm_num
  · intro hd
    rcases press_bounds c u with h | h
    · exfalso
      unfold compensatePressure at h
      rw [if_neg hd] at h
      have hb := pressureNum_mem c u
      have := divP_mem hb.1 hb.2
      rw [h] at this
      norm_num at this
    · exact h

theorem pressure_denom_guard_and_range_witness :
    (pressureDenom zeroCalib = 0 → compensatePressure zeroCalib 0 = 30000) ∧
    (pressureDenom zeroCalib ≠ 0 →
      (300:ℚ) ≤ compensatePressure zeroCalib 0 ∧ compensatePressure zeroCalib 0 ≤ 1100) :=
  pressure_denom_guard_and_range zeroCalib 0 (by decide) (by norm_num)

/-- C2 counterexample: the all-zero calibration set gives a zero denominator
and the compensation then returns 30000.00, not 3000.00; and with p1 = 1,
tFine = 128000 the denominator is nonzero yet the result (838.8608) lies far
below the claimed lower bound 3000.00. -/
theorem pressure_guard_floor_cex :
    pressureDenom zeroCalib = 0 ∧
    compensatePressure zeroCalib 0 = 30000 ∧
    compensatePressure zeroCalib 0 ≠ 3000 ∧
    pressureDenom denomOneCalib ≠ 0 ∧
    compensatePressure denomOneCalib 0 < 3000 := by
  have hz : pressureDenom zeroCalib = 0 := by decide
  have hnz : pressureDenom denomOneCalib ≠ 0 := by decide
  have hv : pressureNum denomOneCalib 0 = 8388608 := by decide
  have h30 : compensatePressure zeroCalib 0 = 30000 := by
    unfold compensatePressure; rw [if_pos hz]; norm_num
  refine ⟨hz, h30, by rw [h30]; norm_num, hnz, ?_⟩
  unfold compensatePressure
  rw [if_neg hnz, hv]
  norm_num

/-- C3: the negative 12-bit fixture decodes as claimed (H4 = +85, H5 = -12
from bytes 3..5 = 0x05, 0x45, 0xFF), but the claim's bit-exact formula fails
for every byte[5] outside [-8, 7]: the source multiplies int8(buf[5]) by 16
in int8, which wraps, so for buf[5] = 0x10 the code decodes h5 = 0 while the
claimed formula (signed(byte[5])*16 | byte[4]>>4) gives 256. -/
theorem humidity_calib_decode_eval :
    calibH4 [0, 0, 0, 5, 0x45, 0xFF, 0] = 85 ∧
    calibH5 [0, 0, 0, 5, 0x45, 0xFF, 0] = -12 ∧
    specH5 [0, 0, 0, 5, 0x45, 0xFF, 0] = -12 ∧
    calibH5 [0, 0, 0, 0, 0, 16, 0] = 0 ∧
    specH5 [0, 0, 0, 0, 0, 16, 0] = 256 := by decide

/-- C4: SetMode swallows bus errors: on a bus whose first read (GetMode)
succeeds returning sleep mode and whose second read (the power-register
read-modify-write) fails, SetMode returns success (and leaves the in-memory
mode unchanged) although a bus call failed — src lines 217-219 return nil on
a read error and the final write's error is never checked. -/
theorem setMode_swallows_bus_error :
    (SetMode setModeBus 0 0 ModeNormal).1 = Except.ok () ∧
    (SetMode setModeBus 0 0 ModeNormal).2.1 = 0 ∧
    setModeBus 1 (BusOp.readReg pwrCtrlAddr 1) = (none, 2) := by decide

/-- C5 (amended): the identity poll of Init performs at most SIX reads
(retries = 5 counts retries after the first attempt): it succeeds exactly
when one of the first six reads returns 0x60, and after six reads none of
which returned 0x60 it fails with the mismatch error carrying the sixth
read's byte, or the bus error if the sixth read failed. -/
theorem init_identity_six_attempts (resp : Nat → Option Nat) :
    (identityPoll resp 5 0).2 ≤ 6 ∧
    ((identityPoll resp 5 0).1 = InitIdRes.ok ↔ ∃ i, i < 6 ∧ resp i = some chipId) ∧
    ((∀ i, i < 6 → resp i ≠ some chipId) →
      (identityPoll resp 5 0).2 = 6 ∧
      (∀ b, resp 5 = some b → (identityPoll resp 5 0).1 = InitIdRes.mismatch b) ∧
      (resp 5 = none → (identityPoll resp 5 0).1 = InitIdRes.busErr)) := by
  refine ⟨identityPoll_count_le resp 5 0, ?_, ?_⟩
  · rw [identityPoll_ok_iff resp 5 0]
    constructor
    · rintro ⟨i, hi, hc⟩
      exact ⟨i, by omega, by simpa using hc⟩
    · rintro ⟨i, hi, hc⟩
      exact ⟨i, by omega, by simpa using hc⟩
  · intro hall
    have h := identityPoll_fail resp 5 0 (by
      intro i hi
      have := hall i (by omega)
      simpa using this)
    simpa using h

/-- C5 counterexample: a bus failing the identity read five times and
returning 0x60 on the sixth succeeds after SIX identity reads — the claim's
"at most 5 reads, failing after the 5th failed attempt" is false. -/
theorem identity_sixth_read_succeeds :
    identityPoll fiveFailResp 5 0 = (InitIdRes.ok, 6) := by decide

/-- C6 (amended): for every well-formed calibration set, 20-bit raw
temperature and pressure and 16-bit raw humidity, the compensated temperature
lies within [-40.00, 85.00] and the compensated humidity within [0, 100.000];
the compensated pressure lies within [300.00, 1100.00] except on the
zero-denominator branch, which returns 30000.00. -/
theorem compensation_output_bounds (c : Calib) (ut up uh : Nat) (hc : c.WF)
    (hut : ut < 1048576) (hup : up < 1048576) (huh : uh < 65536) :
    ((-40:ℚ) ≤ (compensateTemperature c ut).1 ∧ (compensateTemperature c ut).1 ≤ 85) ∧
    ((0:ℚ) ≤ compensateHumidity c uh ∧ compensateHumidity c uh ≤ 100) ∧
    (compensatePressure c up = 30000 ∨
      ((300:ℚ) ≤ compensatePressure c up ∧ compensatePressure c up ≤ 1100)) :=
  ⟨temp_bounds c ut, hum_bounds c uh, press_bounds c up⟩

theorem compensation_output_bounds_witness :
    (((-40:ℚ) ≤ (compensateTemperature zeroCalib 0).1 ∧
        (compensateTemperature zeroCalib 0).1 ≤ 85) ∧
      ((0:ℚ) ≤ compensateHumidity zeroCalib 0 ∧ compensateHumidity zeroCalib 0 ≤ 100) ∧
      (compensatePressure zeroCalib 0 = 30000 ∨
        ((300:ℚ) ≤ compensatePressure zeroCalib 0 ∧ compensatePressure zeroCalib 0 ≤ 1100))) :=
  compensation_output_bounds zeroCalib 0 0 0 (by decide) (by norm_num)
    (by norm_num) (by norm_num)

/-- C6 counterexample: on the all-zero (well-formed) calibration set the
compensated pressure is 30000.00, outside the claimed range
[3000.00, 11000.00]. -/
theorem pressure_out_of_claimed_range :
    compensatePressure zeroCalib 0 = 30000 ∧
    ¬ ((3000:ℚ) ≤ compensatePressure zeroCalib 0 ∧ compensatePressure zeroCalib 0 ≤ 11000) := by
  have hz : pressureDenom zeroCalib = 0 := by decide
  have h30 : compensatePressure zeroCalib 0 = 30000 := by
    unfold compensatePressure; rw [if_pos hz]; norm_num
  refine ⟨h30, ?_⟩
  rw [h30]
  norm_num

/-- C7 (amended): over a register file retaining written bytes, decoding
after encoding is the identity on every Settings whose fields are 3-bit
values — including oversampling encodings 5, 6 and 7, which round-trip to
themselves: the driver does not collapse 6 or 7 to the 16x enum level. -/
theorem settings_roundtrip_id (s : Settings) (r : Regs)
    (hf : s.Filter < 8) (hs : s.Standby < 8) (hp : s.PressureOversampling < 8)
    (ht : s.TemperatureOversampling < 8) (hh : s.HumidityOversampling < 8) :
    (GetSettings regFileStep ((loadSettings regFileStep r s).2)).1 = Except.ok s := by
  obtain ⟨f, sb, p, t, h⟩ := s
  simp only [] at hf hs hp ht hh
  have hmc : Nat.land (r.config % 256) 3 < 4 :=
    lt_of_le_of_lt (land_le_right _ _) (by norm_num)
  have hmm : Nat.land (r.ctrlMeas % 256) 3 < 4 :=
    lt_of_le_of_lt (land_le_right _ _) (by norm_num)
  simp [loadSettings, GetSettings, regFileStep, ReadReg, WriteReg, byteAt,
    ctrlHumAddr, ctrlMeasAddr, configAddr, pwrCtrlAddr]
  exact ⟨(decodePair _ hmc f hf sb hs).1, (decodePair _ hmc f hf sb hs).2,
    (decodePair _ hmm p hp t ht).1, (decodePair _ hmm p hp t ht).2, humRound h hh⟩

theorem settings_roundtrip_id_witness :
    (GetSettings regFileStep
      ((loadSettings regFileStep ⟨255, 171, 205⟩ ⟨1, 2, 3, 4, 5⟩).2)).1 =
      Except.ok ⟨1, 2, 3, 4, 5⟩ :=
  settings_roundtrip_id ⟨1, 2, 3, 4, 5⟩ ⟨255, 171, 205⟩ (by norm_num) (by norm_num)
    (by norm_num) (by norm_num) (by norm_num)

/-- C7 counterexample: the oversampling encoding 6 (a value the claim says
must decode to the single 16x level, whose encoding is 5) round-trips to 6,
not 5: the decoded Settings is not the 16x-collapsed one. -/
theorem oversampling_six_not_collapsed :
    (GetSettings regFileStep
      ((loadSettings regFileStep ⟨0, 0, 0⟩ ⟨0, 0, 6, 6, 6⟩).2)).1 =
        Except.ok ⟨0, 0, 6, 6, 6⟩ ∧
    (Except.ok (⟨0, 0, 6, 6, 6⟩ : Settings) : Except DriverErr Settings) ≠
      Except.ok ⟨0, 0, 5, 5, 5⟩ := by decide

/-- C8: whenever the device's mode reads back as Normal (the power-control
read succeeds and its low two bits are 0b11), forceMeasurement fails with the
invalid-state ("sensor in normal mode") error and the bus trace is exactly
the single mode read: no write was issued before the error. -/
theorem forceMeasurement_normal_no_write (σ : Type) (step : Step σ) (s : σ)
    (l : List Nat) (s1 : σ)
    (hstep : step s (BusOp.readReg pwrCtrlAddr 1) = (some l, s1))
    (hmode : Nat.land (byteAt l 0) 0x03 = ModeNormal) :
    (forceMeasurement (traced step) (s, ([] : List BusOp))).1 =
      Except.error DriverErr.normalMode ∧
    ((forceMeasurement (traced step) (s, ([] : List BusOp))).2).2 =
      [BusOp.readReg pwrCtrlAddr 1] := by
  simp [forceMeasurement, GetMode, ReadReg, traced, hstep, hmode]

theorem forceMeasurement_normal_no_write_witness :
    (forceMeasurement (traced normalByteBus) ((), ([] : List BusOp))).1 =
      Except.error DriverErr.normalMode ∧
    ((forceMeasurement (traced normalByteBus) ((), ([] : List BusOp))).2).2 =
      [BusOp.readReg pwrCtrlAddr 1] :=
  forceMeasurement_normal_no_write Unit normalByteBus () [3] () rfl (by decide)

/-- C9 (amended): on a bus whose reads return fixed register bytes and whose
writes succeed, with the device not in Normal mode, forceMeasurement waits
the ceiling, in whole microseconds, of the FLOAT32 evaluation (one IEEE
rounding per operation) of (1.25 + 2.3*T_coef + (2.3*P_coef + 0.575) +
(2.3*H_coef + 0.575)) * 1000 — the 0.575 offsets added unconditionally, with
the source's coefficient table (off=0, 1x=1, 2x=2, 4x=4, 8x=8, 16x=16,
encodings 6 and 7 also 16) and the float32 images of the constants 2.3 and
0.575. -/
theorem measurement_wait_formula (cfg meas hum : Nat)
    (h : Nat.land (meas % 256) 0x03 ≠ ModeNormal) :
    (forceMeasurement (regByteStep cfg meas hum) ()).1 =
      Except.ok ((fl32fix ((fl32fix (fl32fix (fl32fix (c125fix
          + fl32fix (c23fix * oversamplingCoefs.getD (Nat.land (meas % 256) 224 >>> 5) 0))
          + fl32fix (fl32fix (c23fix * oversamplingCoefs.getD (Nat.land (meas % 256) 28 >>> 2) 0)
              + c0575fix))
          + fl32fix (fl32fix (c23fix * oversamplingCoefs.getD (Nat.land (hum % 256) 7) 0)
              + c0575fix))) * 1000) + fixOne - 1) / fixOne) := by
  simp [forceMeasurement, GetMode, GetSettings, regByteStep, ReadReg, WriteReg, byteAt,
    pwrCtrlAddr, ctrlMeasAddr, ctrlHumAddr, configAddr, h]

theorem measurement_wait_formula_witness :
    (forceMeasurement (regByteStep 0 0 0) ()).1 =
      Except.ok ((fl32fix ((fl32fix (fl32fix (fl32fix (c125fix
          + fl32fix (c23fix * oversamplingCoefs.getD (Nat.land (0 % 256) 224 >>> 5) 0))
          + fl32fix (fl32fix (c23fix * oversamplingCoefs.getD (Nat.land (0 % 256) 28 >>> 2) 0)
              + c0575fix))
          + fl32fix (fl32fix (c23fix * oversamplingCoefs.getD (Nat.land (0 % 256) 7) 0)
              + c0575fix))) * 1000) + fixOne - 1) / fixOne) :=
  measurement_wait_formula 0 0 0 (by decide)

/-- C9 counterexample: with every oversampling off the code waits 2400 µs
(the 0.575 offsets are added though pressure and humidity are disabled) while
the claim's formula gives 1250 µs; and with temperature oversampling 8x the
code waits 20801 µs — the 8x coefficient is 8.0, not 16.0, and the float32
evaluation of the 20.8 ms total lands just above 20800 µs, so even the exact
real-arithmetic reading of the code's own formula (20800) does not match —
while the claim's formula (8x coefficient 16.0) gives 38050 µs. -/
theorem measurement_wait_mismatch :
    (forceMeasurement (regByteStep 0 0 0) ()).1 = Except.ok 2400 ∧
    specMeasMicros ⟨0, 0, 0, 0, 0⟩ = 1250 ∧
    (forceMeasurement (regByteStep 0 128 0) ()).1 = Except.ok 20801 ∧
    specMeasMicros ⟨0, 0, 0, 4, 0⟩ = 38050 ∧
    (2400 : Int) ≠ 1250 ∧ (20801 : Int) ≠ 38050 := by
  refine ⟨by decide, ?_, by decide, ?_, by norm_num, by norm_num⟩
  · norm_num [specMeasMicros, specOversamplingCoefs]
  · norm_num [specMeasMicros, specOversamplingCoefs]

/-- C10: Read decides whether to run the forced-measurement cycle from the
driver's in-memory mode field alone: New yields mode Sleep, and for ANY bus
and any driver whose in-memory mode is not Forced, Read's bus trace is
exactly the single 8-byte burst read of the data register — no power-control
read and no configuration write. -/
theorem read_uses_memory_mode :
    New.mode = ModeSleep ∧
    ∀ (σ : Type) (step : Step σ) (s : σ) (d : Driver), d.mode ≠ ModeForced →
      ((Read (traced step) (s, ([] : List BusOp)) d).2.2).2 = [BusOp.readReg dataAddr 8] := by
  refine ⟨rfl, ?_⟩
  intro σ step s d hm
  rcases hr : step s (BusOp.readReg dataAddr 8) with ⟨_ | l, s2⟩ <;>
    simp [Read, traced, ReadReg, hm, hr]

end BME280
